import Mathlib

/-!
# Verification of the MODAX ESP32 field-layer node

Shallow embedding of `src/esp32-field-layer/src/main.cpp`: the dual-rate
sampling / safety-evaluation loop and its publication policy.

Analog engineering-unit values (amperes, degrees Celsius, accelerations) are
modelled as rationals (`ℚ`); the platform millisecond clock (`millis()`,
32-bit `unsigned long` on ESP32) is modelled as `Nat` reduced modulo `2^32`,
with unsigned subtraction made explicit.
-/

/-- `2^32`, the modulus of the ESP32 `unsigned long` millisecond clock. -/
def UINT32_MOD : Nat := 4294967296

/-- Unsigned 32-bit subtraction `a - b`, as C computes it on `unsigned long`
operands (wraparound semantics). -/
def usub32 (a b : Nat) : Nat :=
  (a % UINT32_MOD + (UINT32_MOD - b % UINT32_MOD)) % UINT32_MOD

/-- `const unsigned long SENSOR_INTERVAL = 100;` (line 29). -/
def SENSOR_INTERVAL : Nat := 100

/-- `const unsigned long SAFETY_INTERVAL = 50;` (line 30). -/
def SAFETY_INTERVAL : Nat := 50

/-- The `SafetyState` struct (lines 42-47). -/
structure SafetyState where
  emergencyStop : Bool
  doorClosed : Bool
  overloadDetected : Bool
  temperatureOk : Bool
deriving DecidableEq

/-- `SafetyState safetyState = {false, true, false, true};` (line 49). -/
def boot_safetyState : SafetyState :=
  { emergencyStop := false, doorClosed := true
    overloadDetected := false, temperatureOk := true }

/-- The readings one `checkSafety` cycle acquires from the hardware:
the two raw digital levels of the safety pins (`digitalRead`, lines 183-184)
and the engineering-unit results of `readCurrent` / `readTemperature`
(lines 187, 188, 192). -/
structure SafetyInputs where
  estopPinHigh : Bool
  doorPinHigh : Bool
  current1 : ℚ
  current2 : ℚ
  temp1 : ℚ

/-- Mutable context of the safety path: the global `safetyState` plus the
`static unsigned long lastSafetyPublish` of `checkSafety` (line 196). -/
structure SafetyCtx where
  safetyState : SafetyState
  lastSafetyPublish : Nat
deriving DecidableEq

/-- Context at boot: `safetyState = {false, true, false, true}` and
`lastSafetyPublish = 0` (static zero-initialization). -/
def boot_safetyCtx : SafetyCtx :=
  { safetyState := boot_safetyState, lastSafetyPublish := 0 }

/-- The JSON safety message built by `publishSafetyData` (lines 232-250):
timestamp, then the four fields of the global `safetyState`.
(The constant `device_id` string is omitted.) -/
structure SafetyMsg where
  timestamp : Nat
  emergency_stop : Bool
  door_closed : Bool
  overload_detected : Bool
  temperature_ok : Bool
deriving DecidableEq

/-- `publishSafetyData()` (lines 232-250): serialize the current global
`safetyState` with a timestamp onto the safety channel. -/
def publishSafetyData (now : Nat) (s : SafetyState) : SafetyMsg :=
  { timestamp := now
    emergency_stop := s.emergencyStop
    door_closed := s.doorClosed
    overload_detected := s.overloadDetected
    temperature_ok := s.temperatureOk }

/-- Outcome of one `checkSafety` cycle: the updated context, the safety
message published this cycle (if any), and whether the local hardware
safety action was signalled (`SAFETY TRIGGERED!`, lines 204-208). -/
structure SafetyResult where
  ctx : SafetyCtx
  published : Option SafetyMsg
  localAction : Bool

/-- `checkSafety()` (lines 176-209), one safety-cadence evaluation at clock
value `now` with acquired readings `inp`:
snapshot the previous `emergencyStop`; invert the pulled-up digital reads;
`overloadDetected = current1 > 10.0 || current2 > 10.0`;
`temperatureOk = temp1 < 85.0`;
publish when `prevEmergencyStop != emergencyStop` or
`millis() - lastSafetyPublish > 1000`; signal the local action when
`emergencyStop || !doorClosed || overloadDetected || !temperatureOk`. -/
def checkSafety (now : Nat) (inp : SafetyInputs) (c : SafetyCtx) : SafetyResult :=
  let prevEmergencyStop := c.safetyState.emergencyStop
  let st : SafetyState :=
    { emergencyStop := !inp.estopPinHigh
      doorClosed := !inp.doorPinHigh
      overloadDetected := decide ((10 : ℚ) < inp.current1) || decide ((10 : ℚ) < inp.current2)
      temperatureOk := decide (inp.temp1 < (85 : ℚ)) }
  let doPublish : Bool :=
    (prevEmergencyStop != st.emergencyStop) || decide (1000 < usub32 now c.lastSafetyPublish)
  { ctx :=
      { safetyState := st
        lastSafetyPublish := if doPublish then now else c.lastSafetyPublish }
    published := if doPublish then some (publishSafetyData now st) else none
    localAction := st.emergencyStop || !st.doorClosed || st.overloadDetected || !st.temperatureOk }

/-- `const unsigned long SAFETY_INTERVAL` gate of `loop()`:
`currentTime - lastX >= interval` with unsigned subtraction
(lines 105 and 111). -/
def cadenceDue (now last period : Nat) : Bool :=
  decide (period ≤ usub32 now last)

/-- Which cadence body `loop()` dispatched, in dispatch order. -/
inductive Event
  | safetyCheck
  | sensorRead
deriving DecidableEq

/-- Process-wide scheduler state mutated by `loop()`:
`lastSensorTime`, `lastSafetyTime` (lines 38-39) and the safety context. -/
structure LoopState where
  lastSensorTime : Nat
  lastSafetyTime : Nat
  safetyCtx : SafetyCtx
deriving DecidableEq

/-- Scheduler state at boot: both timestamps zero (lines 38-39). -/
def boot_loopState : LoopState :=
  { lastSensorTime := 0, lastSafetyTime := 0, safetyCtx := boot_safetyCtx }

/-- Outcome of one `loop()` iteration: updated state, the cadence bodies
dispatched in order, and the safety message published (if any). -/
structure LoopResult where
  state : LoopState
  events : List Event
  safetyPublished : Option SafetyMsg

/-- One iteration of `loop()` (lines 95-115) at clock value `now`, after the
transport-liveness block: first, if `currentTime - lastSafetyTime >=
SAFETY_INTERVAL`, record the dispatch time and run `checkSafety()`; then,
if `currentTime - lastSensorTime >= SENSOR_INTERVAL`, record the dispatch
time and run `readSensors()`. -/
def loopIter (now : Nat) (inp : SafetyInputs) (s : LoopState) : LoopResult :=
  let r1 :
      LoopState × List Event × Option SafetyMsg :=
    if cadenceDue now s.lastSafetyTime SAFETY_INTERVAL then
      let r := checkSafety now inp s.safetyCtx
      ({ s with lastSafetyTime := now, safetyCtx := r.ctx },
        [Event.safetyCheck], r.published)
    else (s, [], none)
  if cadenceDue now r1.1.lastSensorTime SENSOR_INTERVAL then
    { state := { r1.1 with lastSensorTime := now }
      events := r1.2.1 ++ [Event.sensorRead]
      safetyPublished := r1.2.2 }
  else
    { state := r1.1, events := r1.2.1, safetyPublished := r1.2.2 }

/-- Run `loop()` at each clock value in `times` with fixed acquired readings,
counting the safety publishes issued. -/
def runLoopCount (times : List Nat) (inp : SafetyInputs) (s : LoopState) :
    LoopState × Nat :=
  times.foldl
    (fun acc t =>
      let r := loopIter t inp acc.1
      (r.state, acc.2 + if r.safetyPublished.isSome then 1 else 0))
    (s, 0)

/-- The JSON telemetry message built by `publishSensorData` (lines 211-230).
The source publishes `magnitude = sqrt(x*x + y*y + z*z)`; the embedding
carries the radicand `magnitudeSq`, which determines it exactly over `ℚ`.
(The constant `device_id` string is omitted.) -/
structure SensorMsg where
  timestamp : Nat
  current1 : ℚ
  current2 : ℚ
  vibX : ℚ
  vibY : ℚ
  vibZ : ℚ
  magnitudeSq : ℚ
  temp1 : ℚ
deriving DecidableEq

/-- `publishSensorData()` (lines 211-230). -/
def publishSensorData (now : Nat)
    (current1 current2 temp1 vibX vibY vibZ : ℚ) : SensorMsg :=
  { timestamp := now
    current1 := current1
    current2 := current2
    vibX := vibX
    vibY := vibY
    vibZ := vibZ
    magnitudeSq := vibX * vibX + vibY * vibY + vibZ * vibZ
    temp1 := temp1 }

/-- `readSensors()` (lines 154-174): `float vibX = 0, vibY = 0, vibZ = 0;`,
overwritten with the accelerometer reading only when `mpu.getEvent(...)`
returns true, then published unconditionally. `mpuEvent` models the boolean
result of `mpu.getEvent` together with its payload: `none` is a failed read. -/
def readSensors (now : Nat) (current1 current2 temp1 : ℚ)
    (mpuEvent : Option (ℚ × ℚ × ℚ)) : SensorMsg :=
  match mpuEvent with
  | some (x, y, z) => publishSensorData now current1 current2 temp1 x y z
  | none => publishSensorData now current1 current2 temp1 0 0 0

/-! Concrete inputs used by witnesses and counterexamples. -/

/-- C1 scenario readings: `current_1 = 12.0 A`, `current_2 = 5.0 A`,
`temperature = 50 °C`, door input reading closed (pin low, active-low),
emergency stop not asserted (pin high). -/
def inpC1 : SafetyInputs :=
  { estopPinHigh := true, doorPinHigh := false
    current1 := 12, current2 := 5, temp1 := 50 }

/-- Nominal, safe, transition-free readings: no stop, door closed (pin low),
small currents, moderate temperature. -/
def inpNominal : SafetyInputs :=
  { estopPinHigh := true, doorPinHigh := false
    current1 := 1, current2 := 1, temp1 := 25 }

/-- Readings whose only change against the boot state is a door transition
(door pin high: door now reads open, boot state had it closed). -/
def inpDoorEdge : SafetyInputs :=
  { estopPinHigh := true, doorPinHigh := true
    current1 := 1, current2 := 1, temp1 := 25 }

/-- Clock values of the first 21 `loop()` polls, one every 50 ms from boot:
0, 50, 100, ..., 1000 — covering the first full 1000 ms window. -/
def timesFirstSecond : List Nat := (List.range 21).map (fun i => i * 50)

/-- The safety message a heartbeat publish at `now = 2000` from boot context
with nominal readings produces. -/
def msgHeartbeat : SafetyMsg :=
  { timestamp := 2000, emergency_stop := false, door_closed := true
    overload_detected := false, temperature_ok := true }

/-! ## Helper lemmas -/

/-- Unsigned subtraction of a clock value from itself is zero. -/
theorem usub32_self (a : Nat) : usub32 a a = 0 := by
  unfold usub32 UINT32_MOD
  omega

/-! ## Claims -/

/-- C1: in a safety-cadence evaluation with acquired readings
`current_1 = 12.0 A`, `current_2 ≤ 10.0 A`, `temperature = 50 °C`, the door
input reading closed (active-low pin low) and the emergency-stop input not
asserted (pin high), `checkSafety` produces
`SafetyState{emergency_stop = false, door_closed = true,
overload_detected = true, temperature_ok = true}` and raises the local
hardware safety action signal in that same cycle. -/
theorem checkSafety_overload_scenario (now : Nat) (inp : SafetyInputs) (c : SafetyCtx)
    (h1 : inp.current1 = 12) (h2 : inp.current2 ≤ 10) (h3 : inp.temp1 = 50)
    (h4 : inp.doorPinHigh = false) (h5 : inp.estopPinHigh = true) :
    (checkSafety now inp c).ctx.safetyState =
      { emergencyStop := false, doorClosed := true
        overloadDetected := true, temperatureOk := true } ∧
    (checkSafety now inp c).localAction = true := by
  have hc1 : decide ((10 : ℚ) < inp.current1) = true := by
    rw [h1]; norm_num
  have ht : decide (inp.temp1 < (85 : ℚ)) = true := by
    rw [h3]; norm_num
  simp [checkSafety, h4, h5, hc1, ht]

/-- Witness for C1 at the concrete readings of `inpC1`. -/
theorem checkSafety_overload_scenario_witness :
    inpC1.current1 = 12 ∧ inpC1.current2 ≤ 10 ∧ inpC1.temp1 = 50 ∧
    inpC1.doorPinHigh = false ∧ inpC1.estopPinHigh = true ∧
    ((checkSafety 0 inpC1 boot_safetyCtx).ctx.safetyState =
      { emergencyStop := false, doorClosed := true
        overloadDetected := true, temperatureOk := true } ∧
     (checkSafety 0 inpC1 boot_safetyCtx).localAction = true) :=
  ⟨by decide, by decide, by decide, by decide, by decide,
    checkSafety_overload_scenario 0 inpC1 boot_safetyCtx
      (by decide) (by decide) (by decide) (by decide) (by decide)⟩

/-- C2: in every safety-cadence cycle, `overloadDetected` is set true exactly
when at least one of the two current readings acquired in that cycle exceeds
10.0 A — so it reverts to false on the first cycle where both are ≤ 10.0 A,
and (the right-hand side mentioning neither the previous state `c` nor the
clock) the flag depends only on the current cycle's readings: no hysteresis,
latching, or delay. -/
theorem checkSafety_overload_iff (now : Nat) (inp : SafetyInputs) (c : SafetyCtx) :
    (checkSafety now inp c).ctx.safetyState.overloadDetected = true ↔
      (10 < inp.current1 ∨ 10 < inp.current2) := by
  simp [checkSafety]

/-- C3: in every safety-cadence cycle, a safety publish is issued if and only
if the `emergency_stop` value observed in that cycle differs from the previous
cycle's value (either direction), or more than 1000 ms (unsigned clock
arithmetic) have elapsed since the last safety publish (boot counting as
reference point 0). -/
theorem checkSafety_publish_iff (now : Nat) (inp : SafetyInputs) (c : SafetyCtx) :
    (checkSafety now inp c).published.isSome = true ↔
      ((checkSafety now inp c).ctx.safetyState.emergencyStop ≠
          c.safetyState.emergencyStop ∨
        1000 < usub32 now c.lastSafetyPublish) := by
  simp [checkSafety, apply_ite Option.isSome, bne_iff_ne]
  tauto

/-- C4: `loop()` services due cadences in fixed priority order, safety before
sensor: whenever both the safety cadence and the sensor cadence are due at the
same iteration — in particular at the first poll after an overrun of the
sensor-cadence body — the dispatch sequence is exactly safety check first,
then sensor read. -/
theorem loop_safety_before_sensor (now : Nat) (inp : SafetyInputs) (s : LoopState)
    (h1 : cadenceDue now s.lastSafetyTime SAFETY_INTERVAL = true)
    (h2 : cadenceDue now s.lastSensorTime SENSOR_INTERVAL = true) :
    (loopIter now inp s).events = [Event.safetyCheck, Event.sensorRead] := by
  simp [loopIter, h1, h2]

/-- Witness for C4: at clock 100 from boot both cadences are due, and safety
is dispatched first. -/
theorem loop_safety_before_sensor_witness :
    cadenceDue 100 boot_loopState.lastSafetyTime SAFETY_INTERVAL = true ∧
    cadenceDue 100 boot_loopState.lastSensorTime SENSOR_INTERVAL = true ∧
    (loopIter 100 inpNominal boot_loopState).events =
      [Event.safetyCheck, Event.sensorRead] :=
  ⟨by decide, by decide,
    loop_safety_before_sensor 100 inpNominal boot_loopState (by decide) (by decide)⟩

/-- C5 counterexample: polling `loop()` every 50 ms from boot with nominal,
transition-free readings, no safety publish at all is issued at any of the
clock values 0, 50, ..., 1000 — the 1000 ms window starting at boot contains
no safety publish, refuting "a safety publish occurs at least once in every
1000 ms window". (`emergencyStop` indeed never transitions: it stays false.) -/
theorem heartbeat_first_window_cex :
    (runLoopCount timesFirstSecond inpNominal boot_loopState).2 = 0 ∧
    (runLoopCount timesFirstSecond inpNominal
        boot_loopState).1.safetyCtx.safetyState.emergencyStop = false := by
  decide

/-- C5 (amended): each `checkSafety` cycle issues at most one safety publish,
and immediately after every cycle the last safety publish (boot counting as
reference 0) is at most 1000 ms old — hence, with consecutive safety cycles
at most Δ ms apart, every window of length 1000 + Δ ms containing a cycle
boundary contains a publish, but a bare 1000 ms window need not. -/
theorem heartbeat_staleness_bound (now : Nat) (inp : SafetyInputs) (c : SafetyCtx) :
    usub32 now (checkSafety now inp c).ctx.lastSafetyPublish ≤ 1000 ∧
    (checkSafety now inp c).published.toList.length ≤ 1 := by
  constructor
  · simp only [checkSafety]
    split
    · simp [usub32_self]
    · rename_i hcond
      simp only [Bool.or_eq_true, decide_eq_true_eq, not_or] at hcond
      omega
  · simp only [checkSafety]
    split <;> simp

/-- C6: every safety publish serializes the fully-updated `SafetyState` of the
same evaluation cycle: the published message is exactly
`publishSafetyData` of the state composed this cycle, and each of its four
fields is the value computed from this cycle's readings. -/
theorem checkSafety_publish_atomic (now : Nat) (inp : SafetyInputs) (c : SafetyCtx)
    (msg : SafetyMsg) (h : (checkSafety now inp c).published = some msg) :
    msg = publishSafetyData now (checkSafety now inp c).ctx.safetyState ∧
    msg.emergency_stop = (!inp.estopPinHigh) ∧
    msg.door_closed = (!inp.doorPinHigh) ∧
    msg.overload_detected =
      (decide ((10 : ℚ) < inp.current1) || decide ((10 : ℚ) < inp.current2)) ∧
    msg.temperature_ok = decide (inp.temp1 < (85 : ℚ)) := by
  simp only [checkSafety] at h ⊢
  split at h
  · injection h with h
    subst h
    simp [publishSafetyData]
  · exact Option.noConfusion h

/-- Witness for C6: the heartbeat publish at clock 2000 from boot carries all
four same-cycle fields. -/
theorem checkSafety_publish_atomic_witness :
    (checkSafety 2000 inpNominal boot_safetyCtx).published = some msgHeartbeat ∧
    (msgHeartbeat =
        publishSafetyData 2000 (checkSafety 2000 inpNominal boot_safetyCtx).ctx.safetyState ∧
      msgHeartbeat.emergency_stop = (!inpNominal.estopPinHigh) ∧
      msgHeartbeat.door_closed = (!inpNominal.doorPinHigh) ∧
      msgHeartbeat.overload_detected =
        (decide ((10 : ℚ) < inpNominal.current1) || decide ((10 : ℚ) < inpNominal.current2)) ∧
      msgHeartbeat.temperature_ok = decide (inpNominal.temp1 < (85 : ℚ))) :=
  ⟨by decide,
    checkSafety_publish_atomic 2000 inpNominal boot_safetyCtx msgHeartbeat (by decide)⟩

/-- C7: the cadence gate of `loop()` is exactly "unsigned difference
`(now - last) mod 2^32` at least the period", and clock wraparound never
stalls a cadence: for any real boot-relative last-dispatch time `tLast` and
real elapsed time `elapsed < 2^32`, the gate evaluated on the wrapped clock
values fires exactly when `period ≤ elapsed`. -/
theorem cadence_wraparound (tLast elapsed period now last : Nat)
    (h : elapsed < UINT32_MOD) :
    cadenceDue now last period = decide (period ≤ usub32 now last) ∧
    usub32 ((tLast + elapsed) % UINT32_MOD) (tLast % UINT32_MOD) = elapsed ∧
    (cadenceDue ((tLast + elapsed) % UINT32_MOD) (tLast % UINT32_MOD) period = true ↔
      period ≤ elapsed) := by
  have key : usub32 ((tLast + elapsed) % UINT32_MOD) (tLast % UINT32_MOD) = elapsed := by
    simp only [usub32, UINT32_MOD] at h ⊢
    omega
  refine ⟨rfl, key, ?_⟩
  rw [cadenceDue, key]
  simp

/-- Witness for C7 across a wrap: last dispatch at raw clock 4294967290
(6 ms before wrap), 50 ms elapse, the wrapped clock reads 44, and the safety
cadence fires. -/
theorem cadence_wraparound_witness :
    (50 : Nat) < UINT32_MOD ∧
    (cadenceDue 44 4294967290 50 = decide ((50 : Nat) ≤ usub32 44 4294967290) ∧
      usub32 ((4294967290 + 50) % UINT32_MOD) (4294967290 % UINT32_MOD) = 50 ∧
      (cadenceDue ((4294967290 + 50) % UINT32_MOD) (4294967290 % UINT32_MOD) 50 = true ↔
        (50 : Nat) ≤ 50)) :=
  ⟨by decide, cadence_wraparound 4294967290 50 50 44 4294967290 (by decide)⟩

/-- C8 counterexample: with both safety pins reading electrically high (the
open/unpowered pull-up default) the evaluator does NOT yield
`door_closed = true`: from the boot context at clock 0 it yields
`emergencyStop = false` but `doorClosed = false`. -/
theorem pullup_default_cex :
    ¬ ((checkSafety 0 inpDoorEdge boot_safetyCtx).ctx.safetyState.emergencyStop = false ∧
       (checkSafety 0 inpDoorEdge boot_safetyCtx).ctx.safetyState.doorClosed = true) := by
  decide

/-- C8 (amended): whenever both digital safety inputs read electrically high
(the open/unpowered pull-up default), the evaluator yields the defined
defaults `emergency_stop = false` and `door_closed = false` (the active-low
inversion makes an unasserted door sensor read as door open, a fail-safe
default), and evaluation is total (no crash). -/
theorem pullup_default (now : Nat) (inp : SafetyInputs) (c : SafetyCtx)
    (h1 : inp.estopPinHigh = true) (h2 : inp.doorPinHigh = true) :
    (checkSafety now inp c).ctx.safetyState.emergencyStop = false ∧
    (checkSafety now inp c).ctx.safetyState.doorClosed = false := by
  simp [checkSafety, h1, h2]

/-- Witness for C8 (amended) at both pins high, boot context, clock 0. -/
theorem pullup_default_witness :
    inpDoorEdge.estopPinHigh = true ∧ inpDoorEdge.doorPinHigh = true ∧
    ((checkSafety 0 inpDoorEdge boot_safetyCtx).ctx.safetyState.emergencyStop = false ∧
     (checkSafety 0 inpDoorEdge boot_safetyCtx).ctx.safetyState.doorClosed = false) :=
  ⟨by decide, by decide,
    pullup_default 0 inpDoorEdge boot_safetyCtx (by decide) (by decide)⟩

/-- C9: on a failed inertial-sensor read (`mpu.getEvent` returns false),
`readSensors` publishes vibration `(0, 0, 0)` with magnitude 0 — a silent
zero indistinguishable from a genuine all-zero reading, not an explicit
"unavailable" result (the `SensorMsg` wire format has no such marker). -/
theorem readSensors_silent_zero_on_failure :
    (readSensors 0 3 4 25 none).vibX = 0 ∧
    (readSensors 0 3 4 25 none).vibY = 0 ∧
    (readSensors 0 3 4 25 none).vibZ = 0 ∧
    (readSensors 0 3 4 25 none).magnitudeSq = 0 ∧
    readSensors 0 3 4 25 none = readSensors 0 3 4 25 (some (0, 0, 0)) := by
  simp [readSensors, publishSensorData]

/-- C10: a transition of `doorClosed`, `overloadDetected` or `temperatureOk`
alone never triggers a safety publish: in any cycle where the observed
`emergency_stop` equals the previous cycle's value and at most 1000 ms have
elapsed since the last safety publish, no message is published — whatever
the other three fields did. -/
theorem checkSafety_no_edge_other_fields (now : Nat) (inp : SafetyInputs) (c : SafetyCtx)
    (hstop : (!inp.estopPinHigh) = c.safetyState.emergencyStop)
    (hfresh : usub32 now c.lastSafetyPublish ≤ 1000) :
    (checkSafety now inp c).published = none := by
  have h1 : (c.safetyState.emergencyStop != !inp.estopPinHigh) = false := by
    rw [← hstop]
    simp
  have h2 : decide (1000 < usub32 now c.lastSafetyPublish) = false := by
    simp only [decide_eq_false_iff_not, not_lt]
    exact hfresh
  simp [checkSafety, h1, h2]

/-- Witness for C10: at clock 50 from boot, the door transitions from closed
to open while `emergencyStop` stays false — and no safety publish is issued. -/
theorem checkSafety_no_edge_other_fields_witness :
    (!inpDoorEdge.estopPinHigh) = boot_safetyCtx.safetyState.emergencyStop ∧
    usub32 50 boot_safetyCtx.lastSafetyPublish ≤ 1000 ∧
    (checkSafety 50 inpDoorEdge boot_safetyCtx).ctx.safetyState.doorClosed ≠
      boot_safetyCtx.safetyState.doorClosed ∧
    (checkSafety 50 inpDoorEdge boot_safetyCtx).published = none :=
  ⟨by decide, by decide, by decide,
    checkSafety_no_edge_other_fields 50 inpDoorEdge boot_safetyCtx (by decide) (by decide)⟩
